import Mathlib

/-!
# device-modbus-go: the Modbus client adapter and the connection-info builder

A shallow embedding of `internal/driver/modbusclient.go` and of the builder
exercised by `internal/driver/config_test.go`.

* Go `error` values are `Option String` (`none` is `nil`).
* A Go run-time panic is the `Except.error` branch of a result.
* `uint16` and `uint8` values are natural numbers; a conversion `uint16(x)` is
  `x % 65536`, `byte(x)` is `x % 256`.
* A `[]byte` is a `List Nat` whose elements are bytes.
* The external Modbus library (goburrow/modbus) is a state machine `Transport`
  whose replies are arbitrary; every call the adapter makes on it is appended
  to the `trace` of the `World`.
* The process-wide logger is assumed bound; what it is given is appended to the
  `log` of the `World`, apart from the trace.
-/

namespace Driver

/-! ## Go run time -/

/-- Run-time panics the adapter can raise. -/
inductive Panic where
  | nilDereference
  | typeAssertion
  | indexOutOfRange
  deriving DecidableEq, Repr

/-- A Go `error`: `none` is `nil`. -/
abbrev GoError := Option String

/-- The conversion `uint16(x)`. -/
def uint16 (x : Nat) : Nat := x % 65536

/-- The conversion `byte(x)`. -/
def byte (x : Nat) : Nat := x % 256

/-- `strconv.Itoa`, the `%d` verb of `fmt`: the decimal text of an integer. -/
def decimalText (z : Int) : String :=
  if z < 0 then "-" ++ Nat.repr z.natAbs else Nat.repr z.toNat

/-- `strings.Split` on the characters of a string, for a one-character separator. -/
def stringsSplit (sep : Char) : List Char → List (List Char)
  | [] => [[]]
  | c :: cs =>
    if c = sep then [] :: stringsSplit sep cs
    else
      match stringsSplit sep cs with
      | [] => [[c]]
      | f :: fs => (c :: f) :: fs

/-- `binary.BigEndian.Uint16`: `uint16(b[1]) | uint16(b[0])<<8`; it panics on a
slice shorter than two bytes. -/
def bigEndianUint16 : List Nat → Except Panic Nat
  | b0 :: b1 :: _ => .ok (uint16 b1 ||| uint16 (uint16 b0 <<< 8))
  | _ => .error .indexOutOfRange

/-- The `%v` verb of `fmt` on a `[]byte`. -/
def formatBytes (bs : List Nat) : String :=
  "[" ++ " ".intercalate (bs.map Nat.repr) ++ "]"

/-! ## Names declared elsewhere in the package -/

/-- The constants `ProtocolTCP`, `ProtocolRTU`, `ProtocolASCII` and the four
primary-table constants are declared in a file of the package that is not part
of the sources here: they are parameters of every definition that uses them. -/
structure Names where
  ProtocolTCP : String
  ProtocolRTU : String
  ProtocolASCII : String
  DISCRETES_INPUT : String
  COILS : String
  INPUT_REGISTERS : String
  HOLDING_REGISTERS : String
  deriving Repr

/-- The three protocol names are pairwise distinct. -/
def Names.ProtocolsDistinct (K : Names) : Prop :=
  K.ProtocolTCP ≠ K.ProtocolRTU ∧ K.ProtocolTCP ≠ K.ProtocolASCII ∧
    K.ProtocolRTU ≠ K.ProtocolASCII

/-- The four primary-table names are pairwise distinct (Go refuses a `switch`
with a duplicated constant case). -/
def Names.TablesDistinct (K : Names) : Prop :=
  [K.DISCRETES_INPUT, K.COILS, K.INPUT_REGISTERS, K.HOLDING_REGISTERS].Nodup

instance (K : Names) : Decidable K.ProtocolsDistinct :=
  inferInstanceAs (Decidable (_ ∧ _ ∧ _))

instance (K : Names) : Decidable K.TablesDistinct :=
  inferInstanceAs (Decidable (List.Nodup _))

/-- Modelled from the spec: the declaration of `CommandInfo` is not part of the
sources here; these are the fields `GetValue` and `SetValue` read. The address
and the length are `uint16`: both are passed unconverted to `uint16`
parameters of the library. -/
structure CommandInfo where
  PrimaryTable : String
  StartingAddress : Nat
  Length : Nat
  deriving DecidableEq, Repr

/-- Modelled from the spec: the declaration of `ConnectionInfo` is not part of
the sources here; these are the fields `NewDeviceClient` reads and
`config_test.go` compares (`UnitID` is a `uint8`, the other numbers are `int`). -/
structure ConnectionInfo where
  Protocol : String
  Address : String
  Port : Int
  UnitID : Nat
  BaudRate : Int
  DataBits : Int
  StopBits : Int
  Parity : String
  deriving DecidableEq, Repr

/-- The dynamic value behind the `interface{}` argument of `GetValue` and
`SetValue`: a `*CommandInfo` (possibly a nil pointer), or anything else. -/
inductive Iface where
  | commandInfo (p : Option CommandInfo)
  | other
  deriving DecidableEq, Repr

/-! ## The external Modbus library -/

/-- Where a handler logs. -/
inductive LogSink where
  | stdout
  deriving DecidableEq, Repr

/-- One second, in the nanoseconds of `time.Duration`. -/
def second : Nat := 1000000000

/-- The exported fields of `MODBUS.TCPClientHandler`. -/
structure TCPClientHandler where
  Address : String
  Timeout : Nat
  IdleTimeout : Nat
  SlaveId : Nat
  Logger : Option LogSink
  deriving DecidableEq, Repr

/-- The exported fields of `MODBUS.RTUClientHandler` and of
`MODBUS.ASCIIClientHandler`, which are the same. -/
structure SerialClientHandler where
  Address : String
  BaudRate : Int
  DataBits : Int
  StopBits : Int
  Parity : String
  Timeout : Nat
  IdleTimeout : Nat
  SlaveId : Nat
  Logger : Option LogSink
  deriving DecidableEq, Repr

/-- The zero value `new(MODBUS.TCPClientHandler)`. -/
def TCPClientHandler.zero : TCPClientHandler :=
  { Address := "", Timeout := 0, IdleTimeout := 0, SlaveId := 0, Logger := none }

/-- The zero value of a serial handler. -/
def SerialClientHandler.zero : SerialClientHandler :=
  { Address := "", BaudRate := 0, DataBits := 0, StopBits := 0, Parity := "",
    Timeout := 0, IdleTimeout := 0, SlaveId := 0, Logger := none }

/-- `MODBUS.NewTCPClientHandler`: the address and the library's timeouts. -/
def NewTCPClientHandler (address : String) : TCPClientHandler :=
  { TCPClientHandler.zero with
    Address := address, Timeout := 10 * second, IdleTimeout := 60 * second }

/-- `MODBUS.NewRTUClientHandler` and `MODBUS.NewASCIIClientHandler`: the address
and the library's serial timeouts. -/
def NewSerialClientHandler (address : String) : SerialClientHandler :=
  { SerialClientHandler.zero with
    Address := address, Timeout := 5 * second, IdleTimeout := 60 * second }

/-- Which of the three handler fields of a `ModbusClient` is meant. -/
inductive HandlerRef where
  | tcp
  | rtu
  | ascii
  deriving DecidableEq, Repr

/-- The seven operations of `MODBUS.Client` the adapter uses. -/
inductive Request where
  | ReadDiscreteInputs (address quantity : Nat)
  | ReadCoils (address quantity : Nat)
  | ReadInputRegisters (address quantity : Nat)
  | ReadHoldingRegisters (address quantity : Nat)
  | WriteMultipleCoils (address quantity : Nat) (value : List Nat)
  | WriteMultipleRegisters (address quantity : Nat) (value : List Nat)
  | WriteSingleRegister (address value : Nat)
  deriving DecidableEq, Repr

/-- A call made on the library: `Connect` or `Close` on a handler, or an
operation of the client built on a handler. -/
inductive Event where
  | Connect (h : HandlerRef)
  | Close (h : HandlerRef)
  | Send (h : HandlerRef) (r : Request)
  deriving DecidableEq, Repr

/-- The library and the device behind it: a state machine with arbitrary
replies. -/
structure Transport (σ : Type) where
  connect : HandlerRef → σ → GoError × σ
  close : HandlerRef → σ → GoError × σ
  send : HandlerRef → Request → σ → (List Nat × GoError) × σ

/-- Severity of a log line. -/
inductive Level where
  | info
  | error
  deriving DecidableEq, Repr

/-- The transport state, the calls made on the library so far (oldest first),
and the lines given to the logger so far. -/
structure World (σ : Type) where
  st : σ
  trace : List Event
  log : List (Level × String)

/-- Append a line to the log. -/
def World.logLine {σ : Type} (w : World σ) (l : Level) (msg : String) : World σ :=
  { w with log := w.log ++ [(l, msg)] }

/-- Call `Connect` on a handler. -/
def World.connect {σ : Type} (T : Transport σ) (h : HandlerRef) (w : World σ) :
    GoError × World σ :=
  ((T.connect h w.st).1,
    { w with st := (T.connect h w.st).2, trace := w.trace ++ [Event.Connect h] })

/-- Call `Close` on a handler. -/
def World.close {σ : Type} (T : Transport σ) (h : HandlerRef) (w : World σ) :
    GoError × World σ :=
  ((T.close h w.st).1,
    { w with st := (T.close h w.st).2, trace := w.trace ++ [Event.Close h] })

/-! ## modbusclient.go -/

/-- The struct `ModbusClient`; `client` is nil, or the client built on one of
the three handlers. -/
structure ModbusClient where
  ModbusProtocol : String
  TCPClientHandler : TCPClientHandler
  RTUClientHandler : SerialClientHandler
  ASCIIClientHandler : SerialClientHandler
  client : Option HandlerRef
  deriving DecidableEq, Repr

/-- The zero value `new(ModbusClient)`. -/
def ModbusClient.zero : ModbusClient :=
  { ModbusProtocol := "", TCPClientHandler := TCPClientHandler.zero,
    RTUClientHandler := SerialClientHandler.zero,
    ASCIIClientHandler := SerialClientHandler.zero, client := none }

/-- A method call on `c.client`: a nil client panics, a bound one sends the
request through its handler. -/
def ModbusClient.call {σ : Type} (T : Transport σ) (c : ModbusClient) (r : Request)
    (w : World σ) : Except Panic ((List Nat × GoError) × World σ) :=
  match c.client with
  | none => .error .nilDereference
  | some h =>
    .ok ((T.send h r w.st).1,
      { w with st := (T.send h r w.st).2, trace := w.trace ++ [Event.Send h r] })

/-- `func (c *ModbusClient) OpenConnection() error`. -/
def ModbusClient.OpenConnection {σ : Type} (K : Names) (T : Transport σ)
    (c : ModbusClient) (w : World σ) : GoError × ModbusClient × World σ :=
  if c.ModbusProtocol = K.ProtocolTCP then
    let r := w.connect T HandlerRef.tcp
    (r.1, { c with client := some HandlerRef.tcp },
      r.2.logLine Level.info "Modbus client create TCP connection.")
  else if c.ModbusProtocol = K.ProtocolRTU then
    let r := w.connect T HandlerRef.rtu
    (r.1, { c with client := some HandlerRef.rtu },
      r.2.logLine Level.info "Modbus client create RTU connection.")
  else
    let r := w.connect T HandlerRef.ascii
    (r.1, { c with client := some HandlerRef.ascii },
      r.2.logLine Level.info "Modbus client create ASCII connection.")

/-- `func (c *ModbusClient) CloseConnection() error`. -/
def ModbusClient.CloseConnection {σ : Type} (K : Names) (T : Transport σ)
    (c : ModbusClient) (w : World σ) : GoError × ModbusClient × World σ :=
  if c.ModbusProtocol = K.ProtocolTCP then
    let r := w.close T HandlerRef.tcp
    (r.1, c, r.2)
  else if c.ModbusProtocol = K.ProtocolRTU then
    let r := w.close T HandlerRef.rtu
    (r.1, c, r.2)
  else
    let r := w.close T HandlerRef.ascii
    (r.1, c, r.2)

/-- The type assertion `commandInfo.(*CommandInfo)` followed by the first field
access through the pointer. -/
def assertCommandInfo : Iface → Except Panic CommandInfo
  | Iface.commandInfo (some cmd) => .ok cmd
  | Iface.commandInfo none => .error .nilDereference
  | Iface.other => .error .typeAssertion

/-- `func (c *ModbusClient) GetValue(commandInfo interface{}) ([]byte, error)`. -/
def ModbusClient.GetValue {σ : Type} (K : Names) (T : Transport σ) (c : ModbusClient)
    (commandInfo : Iface) (w : World σ) : Except Panic ((List Nat × GoError) × World σ) := do
  let modbusCommandInfo ← assertCommandInfo commandInfo
  let ((response, err), w1) ←
    if modbusCommandInfo.PrimaryTable = K.DISCRETES_INPUT then
      c.call T (Request.ReadDiscreteInputs modbusCommandInfo.StartingAddress
        modbusCommandInfo.Length) w
    else if modbusCommandInfo.PrimaryTable = K.COILS then
      c.call T (Request.ReadCoils modbusCommandInfo.StartingAddress
        modbusCommandInfo.Length) w
    else if modbusCommandInfo.PrimaryTable = K.INPUT_REGISTERS then
      c.call T (Request.ReadInputRegisters modbusCommandInfo.StartingAddress
        modbusCommandInfo.Length) w
    else if modbusCommandInfo.PrimaryTable = K.HOLDING_REGISTERS then
      c.call T (Request.ReadHoldingRegisters modbusCommandInfo.StartingAddress
        modbusCommandInfo.Length) w
    else
      pure (([], none), w.logLine Level.error "None supported primary table! ")
  match err with
  | some e => pure ((response, some e), w1)
  | none =>
    pure ((response, none),
      w1.logLine Level.info ("Modbus client GetValue's results " ++ formatBytes response))

/-- `func (c *ModbusClient) SetValue(commandInfo interface{}, value []byte) error`. -/
def ModbusClient.SetValue {σ : Type} (K : Names) (T : Transport σ) (c : ModbusClient)
    (commandInfo : Iface) (value : List Nat) (w : World σ) :
    Except Panic (GoError × World σ) := do
  let modbusCommandInfo ← assertCommandInfo commandInfo
  let ((result, err), w1) ←
    if modbusCommandInfo.PrimaryTable = K.DISCRETES_INPUT then
      c.call T (Request.WriteMultipleCoils (uint16 modbusCommandInfo.StartingAddress)
        modbusCommandInfo.Length value) w
    else if modbusCommandInfo.PrimaryTable = K.COILS then
      c.call T (Request.WriteMultipleCoils (uint16 modbusCommandInfo.StartingAddress)
        modbusCommandInfo.Length value) w
    else if modbusCommandInfo.PrimaryTable = K.INPUT_REGISTERS then
      c.call T (Request.WriteMultipleRegisters (uint16 modbusCommandInfo.StartingAddress)
        modbusCommandInfo.Length value) w
    else if modbusCommandInfo.PrimaryTable = K.HOLDING_REGISTERS then
      if modbusCommandInfo.Length = 1 then do
        let v ← bigEndianUint16 value
        c.call T (Request.WriteSingleRegister (uint16 modbusCommandInfo.StartingAddress) v) w
      else
        c.call T (Request.WriteMultipleRegisters (uint16 modbusCommandInfo.StartingAddress)
          modbusCommandInfo.Length value) w
    else
      pure (([], none), w)
  match err with
  | some e => pure (some e, w1)
  | none =>
    pure (none,
      w1.logLine Level.info
        ("Modbus client SetValue successful, results: " ++ formatBytes result))

/-- `func NewDeviceClient(connectionInfo *ConnectionInfo) (*ModbusClient, error)`;
a nil pointer panics at the first field access. -/
def NewDeviceClient (K : Names) (connectionInfo : Option ConnectionInfo) :
    Except Panic (ModbusClient × GoError) :=
  match connectionInfo with
  | none => .error .nilDereference
  | some info =>
    let client := ModbusClient.zero
    let err : GoError := none
    if info.Protocol = K.ProtocolTCP then
      let tcpClientHandler :=
        { NewTCPClientHandler (info.Address ++ ":" ++ decimalText info.Port) with
          SlaveId := byte info.UnitID, IdleTimeout := 0, Logger := some LogSink.stdout }
      .ok ({ client with
              TCPClientHandler := tcpClientHandler,
              RTUClientHandler := SerialClientHandler.zero,
              ASCIIClientHandler := SerialClientHandler.zero }, err)
    else if info.Protocol = K.ProtocolRTU then
      match stringsSplit ',' info.Address.data with
      | [] => .error .indexOutOfRange
      | path :: _ =>
        let rtuClientHandler :=
          { NewSerialClientHandler (String.mk path) with
            SlaveId := byte info.UnitID, IdleTimeout := 0, BaudRate := info.BaudRate,
            DataBits := info.DataBits, StopBits := info.StopBits, Parity := info.Parity,
            Logger := some LogSink.stdout }
        .ok ({ client with
                TCPClientHandler := TCPClientHandler.zero,
                RTUClientHandler := rtuClientHandler,
                ASCIIClientHandler := SerialClientHandler.zero }, err)
    else
      match stringsSplit ',' info.Address.data with
      | [] => .error .indexOutOfRange
      | path :: _ =>
        let asciiClientHandler :=
          { NewSerialClientHandler (String.mk path) with
            SlaveId := byte info.UnitID, IdleTimeout := 0, BaudRate := info.BaudRate,
            DataBits := info.DataBits, StopBits := info.StopBits, Parity := info.Parity,
            Logger := some LogSink.stdout }
        .ok ({ client with
                TCPClientHandler := TCPClientHandler.zero,
                RTUClientHandler := SerialClientHandler.zero,
                ASCIIClientHandler := asciiClientHandler }, err)

/-! ## The connection-info builder -/

/-- Modelled from the spec: `models.ProtocolProperties` is declared outside the
sources here; `config_test.go` fills these string fields, and section 6 of the
spec lists them. -/
structure ProtocolProperties where
  Address : String
  Port : String
  UnitID : String
  BaudRate : String
  DataBits : String
  StopBits : String
  Parity : String
  deriving DecidableEq, Repr

/-- An entry with every field empty, the zero value of the struct. -/
def ProtocolProperties.zero : ProtocolProperties :=
  { Address := "", Port := "", UnitID := "", BaudRate := "", DataBits := "",
    StopBits := "", Parity := "" }

/-- A Go `map[string]models.ProtocolProperties`, by its lookup. -/
abbrev ProtocolMap := String → Option ProtocolProperties

/-- Modelled from the spec: the error taxonomy of the builder (section 4.1),
which is declared in a file that is not part of the sources here. -/
inductive ConfigError where
  | missingProtocol
  | outOfRange
  | parseError
  | invalidParity
  deriving DecidableEq, Repr

/-- The text the parity test of `config_test.go` looks for. -/
def invalidParityText : String :=
  "invalid parity value, it should be N(None) or O(Odd) or E(Even)"

/-- The text the range tests of `config_test.go` look for. -/
def outOfRangeText : String := "value out of range"

/-- Modelled from the spec: the message of each error kind, in the words of the
taxonomy of section 4.1 and of `config_test.go`. -/
def ConfigError.message : ConfigError → String
  | ConfigError.missingProtocol => "missing protocol configuration"
  | ConfigError.outOfRange => outOfRangeText
  | ConfigError.parseError => "parse error"
  | ConfigError.invalidParity => invalidParityText

/-- `strings.Contains(s, sub)`. -/
def stringsContains (s sub : String) : Prop := sub.data <:+: s.data

instance (s sub : String) : Decidable (stringsContains s sub) :=
  inferInstanceAs (Decidable (sub.data <:+: s.data))

/-- Modelled from the spec: the value of a decimal digit, for the parser of the
numeric fields, which is not part of the sources here. -/
def digitValue (c : Char) : Option Nat :=
  if '0' ≤ c ∧ c ≤ '9' then some (c.toNat - '0'.toNat) else none

/-- Modelled from the spec: read decimal digits, most significant first, onto
an accumulator, for the parser of the numeric fields, which is not part of the
sources here. -/
def parseDigits : Nat → List Char → Option Nat
  | acc, [] => some acc
  | acc, c :: cs =>
    match digitValue c with
    | none => none
    | some d => parseDigits (10 * acc + d) cs

/-- Modelled from the spec: "parsed as an integer" (section 4.1); the parser
itself is in a file that is not part of the sources here. An optional sign and
then one or more decimal digits. -/
def parseInteger (text : String) : Option Int :=
  match text.data with
  | [] => none
  | c :: cs =>
    if c = '-' then
      if cs = [] then none else (parseDigits 0 cs).map (fun (n : Nat) => -(n : Int))
    else if c = '+' then
      if cs = [] then none else (parseDigits 0 cs).map (fun (n : Nat) => (n : Int))
    else (parseDigits 0 (c :: cs)).map (fun (n : Nat) => (n : Int))

/-- Modelled from the spec: a numeric field fails with a parse error when it is
not numeric and with an out-of-range error when its value is outside the valid
domain `lo..hi` (section 4.1). -/
def parseRanged (lo hi : Int) (text : String) : Except ConfigError Int :=
  match parseInteger text with
  | none => .error ConfigError.parseError
  | some z => if lo ≤ z ∧ z ≤ hi then .ok z else .error ConfigError.outOfRange

/-- Modelled from the spec: "what the integer type allows" (section 4.1) for
`BaudRate`, `DataBits` and `StopBits`, which `config_test.go` compares with Go
`int` values; the least value of a 64-bit `int`. -/
def intMin : Int := -(2 ^ 63)

/-- Modelled from the spec: the greatest value of a 64-bit `int`. -/
def intMax : Int := 2 ^ 63 - 1

/-- Modelled from the spec: `Parity` is validated against the set N, O, E
(section 4.1). -/
def parseParity (text : String) : Except ConfigError String :=
  if text = "N" ∨ text = "O" ∨ text = "E" then .ok text
  else .error ConfigError.invalidParity

/-- Modelled from the spec: the TCP branch of the builder, which is in a file
that is not part of the sources here. The fields are validated in the order
section 4.1 lists them: `UnitID`, then `Port`. -/
def createTCPConnectionInfo (K : Names) (e : ProtocolProperties) :
    Except ConfigError ConnectionInfo := do
  let unitID ← parseRanged 0 255 e.UnitID
  let port ← parseRanged 0 65535 e.Port
  pure { Protocol := K.ProtocolTCP, Address := e.Address, Port := port,
         UnitID := unitID.toNat, BaudRate := 0, DataBits := 0, StopBits := 0, Parity := "" }

/-- Modelled from the spec: the branch of the builder shared by RTU and ASCII,
which is in a file that is not part of the sources here. The fields are
validated in the order section 4.1 lists them: `UnitID`, `BaudRate`, `DataBits`,
`StopBits`, then `Parity`. -/
def createSerialConnectionInfo (protocol : String) (e : ProtocolProperties) :
    Except ConfigError ConnectionInfo := do
  let unitID ← parseRanged 0 255 e.UnitID
  let baudRate ← parseRanged intMin intMax e.BaudRate
  let dataBits ← parseRanged intMin intMax e.DataBits
  let stopBits ← parseRanged intMin intMax e.StopBits
  let parity ← parseParity e.Parity
  pure { Protocol := protocol, Address := e.Address, Port := 0,
         UnitID := unitID.toNat, BaudRate := baudRate, DataBits := dataBits,
         StopBits := stopBits, Parity := parity }

/-- Modelled from the spec: `createConnectionInfo`, called by `config_test.go`
and defined in a file that is not part of the sources here. It looks for a TCP
entry first, then for an RTU entry, then for an ASCII entry (section 4.1), and
fails when there is none. -/
def createConnectionInfo (K : Names) (protocols : ProtocolMap) :
    Except ConfigError ConnectionInfo :=
  match protocols K.ProtocolTCP with
  | some e => createTCPConnectionInfo K e
  | none =>
    match protocols K.ProtocolRTU with
    | some e => createSerialConnectionInfo K.ProtocolRTU e
    | none =>
      match protocols K.ProtocolASCII with
      | some e => createSerialConnectionInfo K.ProtocolASCII e
      | none => .error ConfigError.missingProtocol

/-- An adapter built from a `ConnectionInfo`, opened and then closed. -/
def roundTrip {σ : Type} (K : Names) (T : Transport σ) (info : ConnectionInfo)
    (w : World σ) : Except Panic (GoError × GoError × World σ) := do
  let (c, _) ← NewDeviceClient K (some info)
  let (openErr, c1, w1) := c.OpenConnection K T w
  let (closeErr, _, w2) := c1.CloseConnection K T w1
  pure (openErr, closeErr, w2)

/-! ## Outcomes, as the specification words them -/

/-- The outcome of a read that made exactly one call on the library, the
request `r` through the client on handler `h`, and handed back the bytes and the
error of that call. -/
def ReadOutcome {σ : Type} (T : Transport σ) (h : HandlerRef) (r : Request) (w : World σ)
    (out : Except Panic ((List Nat × GoError) × World σ)) : Prop :=
  ∃ w1, out = .ok ((T.send h r w.st).1, w1) ∧
    w1.trace = w.trace ++ [Event.Send h r] ∧ w1.st = (T.send h r w.st).2

/-- The outcome of a write that made exactly one call on the library, the
request `r` through the client on handler `h`, and handed back the error of
that call. -/
def WriteOutcome {σ : Type} (T : Transport σ) (h : HandlerRef) (r : Request) (w : World σ)
    (out : Except Panic (GoError × World σ)) : Prop :=
  ∃ w1, out = .ok ((T.send h r w.st).1.2, w1) ∧
    w1.trace = w.trace ++ [Event.Send h r] ∧ w1.st = (T.send h r w.st).2

/-- The serial entry the builder works on: there is no TCP entry, and `e` is
the RTU entry, or there is no RTU entry either and `e` is the ASCII entry. -/
def SelectsSerial (K : Names) (protocols : ProtocolMap) (protocol : String)
    (e : ProtocolProperties) : Prop :=
  protocols K.ProtocolTCP = none ∧
    ((protocol = K.ProtocolRTU ∧ protocols K.ProtocolRTU = some e) ∨
      (protocol = K.ProtocolASCII ∧ protocols K.ProtocolRTU = none ∧
        protocols K.ProtocolASCII = some e))

/-! ## Concrete inputs -/

/-- One choice of names, in the style of the upstream device service. -/
def exampleNames : Names :=
  { ProtocolTCP := "modbus-tcp", ProtocolRTU := "modbus-rtu", ProtocolASCII := "modbus-ascii",
    DISCRETES_INPUT := "DISCRETES_INPUT", COILS := "COILS",
    INPUT_REGISTERS := "INPUT_REGISTERS", HOLDING_REGISTERS := "HOLDING_REGISTERS" }

/-- A transport without state whose every call succeeds with an empty reply. -/
def quietTransport : Transport Unit :=
  { connect := fun _ s => (none, s), close := fun _ s => (none, s),
    send := fun _ _ s => (([], none), s) }

/-- A transport without state whose every call fails. -/
def failingTransport : Transport Unit :=
  { connect := fun _ s => (some "dial failed", s), close := fun _ s => (some "close failed", s),
    send := fun _ _ s => (([1], some "timeout"), s) }

/-- Nothing called, nothing logged. -/
def emptyWorld : World Unit := { st := (), trace := [], log := [] }

/-- An adapter whose client is bound to the TCP handler. -/
def boundClient : ModbusClient :=
  { ModbusClient.zero with ModbusProtocol := "modbus-tcp", client := some HandlerRef.tcp }

/-- The `ConnectionInfo` that `TestCreateTCPConnectionInfo` expects. -/
def tcpInfo : ConnectionInfo :=
  { Protocol := "modbus-tcp", Address := "0.0.0.0", Port := 502, UnitID := 255,
    BaudRate := 0, DataBits := 0, StopBits := 0, Parity := "" }

/-- The TCP entry of `TestCreateTCPConnectionInfo`. -/
def tcpEntry : ProtocolProperties :=
  { ProtocolProperties.zero with Address := "0.0.0.0", Port := "502", UnitID := "255" }

/-- The RTU entry of `TestCreateRTUConnectionInfo_unitID255`. -/
def rtuEntry : ProtocolProperties :=
  { ProtocolProperties.zero with
    Address := "/dev/USB0tty", UnitID := "255", BaudRate := "19200", DataBits := "8",
    StopBits := "1", Parity := "N" }

/-- The ASCII entry of `TestCreateASCIIConnectionInfo_dataBits7`. -/
def asciiEntry : ProtocolProperties :=
  { ProtocolProperties.zero with
    Address := "/dev/USB0tty", UnitID := "255", BaudRate := "19200", DataBits := "7",
    StopBits := "1", Parity := "N" }

/-- A map with the one entry `e` under the key `key`. -/
def singleEntry (key : String) (e : ProtocolProperties) : ProtocolMap :=
  fun k => if k = key then some e else none

/-- A map with an RTU entry and an ASCII entry, and no TCP entry. -/
def bothSerial : ProtocolMap :=
  fun k =>
    if k = "modbus-rtu" then some rtuEntry
    else if k = "modbus-ascii" then some asciiEntry else none

/-- A coil read of two coils from address 10. -/
def coilRead : CommandInfo :=
  { PrimaryTable := "COILS", StartingAddress := 10, Length := 2 }

/-- A map with a valid TCP entry and an RTU entry whose unit is 256. -/
def tcpAndBadUnitRtu : ProtocolMap :=
  fun k =>
    if k = "modbus-tcp" then some tcpEntry
    else if k = "modbus-rtu" then some { rtuEntry with UnitID := "256" } else none

/-- A map with a valid TCP entry and an RTU entry whose parity is not N, O or E. -/
def tcpAndBadParityRtu : ProtocolMap :=
  fun k =>
    if k = "modbus-tcp" then some tcpEntry
    else if k = "modbus-rtu" then some { rtuEntry with Parity := "invalid-parity" } else none

/-- A map with no TCP entry, an RTU entry whose parity is not N, O or E, and a
valid ASCII entry, whose parity is N. -/
def badParityRtuAndAscii : ProtocolMap :=
  fun k =>
    if k = "modbus-rtu" then some { rtuEntry with Parity := "invalid-parity" }
    else if k = "modbus-ascii" then some asciiEntry else none

/-! ## Arithmetic and text lemmas -/

/-- On two bytes the big-endian decoding is `256 * b0 + b1`. -/
theorem bigEndianUint16_bytes (b0 b1 : Nat) (rest : List Nat) (h0 : b0 < 256) (h1 : b1 < 256) :
    bigEndianUint16 (b0 :: b1 :: rest) = .ok (256 * b0 + b1) := by
  have e : uint16 b1 ||| uint16 (uint16 b0 <<< 8) = 256 * b0 + b1 := by
    unfold uint16
    rw [Nat.mod_eq_of_lt (by omega : b1 < 65536), Nat.mod_eq_of_lt (by omega : b0 < 65536),
      Nat.shiftLeft_eq, Nat.mod_eq_of_lt (by omega : b0 * 2 ^ 8 < 65536)]
    have := Nat.mul_add_lt_is_or (show b1 < 2 ^ 8 by omega) b0
    rw [Nat.or_comm, Nat.mul_comm b0, ← this]
  simp only [bigEndianUint16, e]

/-- The digit character of `k` reads back as `k`. -/
theorem digitValue_digitChar (k : Nat) (hk : k < 10) : digitValue (Nat.digitChar k) = some k := by
  interval_cases k <;> rfl

/-- A digit character is not a sign. -/
theorem digitChar_ne_sign (k : Nat) (hk : k < 10) :
    Nat.digitChar k ≠ '-' ∧ Nat.digitChar k ≠ '+' := by
  interval_cases k <;> decide

/-- Reading the digits that were written for `n` in front of `ds` is reading
`ds` from the accumulator `n`. -/
theorem parseDigits_toDigitsCore (fuel : Nat) :
    ∀ (n : Nat) (ds : List Char), n < fuel →
      parseDigits 0 (Nat.toDigitsCore 10 fuel n ds) = parseDigits n ds := by
  induction fuel with
  | zero => intro n ds h; omega
  | succ f ih =>
    intro n ds h
    have hd := digitValue_digitChar (n % 10) (Nat.mod_lt _ (by norm_num))
    unfold Nat.toDigitsCore
    by_cases h0 : n / 10 = 0
    · simp only [h0, if_true, parseDigits, hd]
      have : n % 10 = n := Nat.mod_eq_of_lt (by omega)
      simp [this]
    · simp only [h0, if_false]
      rw [ih (n / 10) _ (by omega)]
      simp only [parseDigits, hd]
      congr 1
      omega

/-- The digits written for a number start with a digit character. -/
theorem toDigitsCore_head (fuel : Nat) :
    ∀ (n : Nat) (ds : List Char), n < fuel →
      ∃ k rest, k < 10 ∧ Nat.toDigitsCore 10 fuel n ds = Nat.digitChar k :: rest := by
  induction fuel with
  | zero => intro n ds h; omega
  | succ f ih =>
    intro n ds h
    unfold Nat.toDigitsCore
    by_cases h0 : n / 10 = 0
    · exact ⟨n % 10, ds, Nat.mod_lt _ (by norm_num), by simp [h0]⟩
    · simp only [h0, if_false]
      exact ih (n / 10) _ (by omega)

/-- The characters of `Nat.repr`. -/
theorem repr_data (n : Nat) : (Nat.repr n).data = Nat.toDigitsCore 10 (n + 1) n [] := rfl

/-- Round trip: the decimal text of an integer parses back to that integer. -/
theorem parseInteger_decimalText (z : Int) : parseInteger (decimalText z) = some z := by
  unfold decimalText
  by_cases hz : z < 0
  · obtain ⟨k, rest, hk, hr⟩ := toDigitsCore_head (z.natAbs + 1) z.natAbs [] (by omega)
    have hp := parseDigits_toDigitsCore (z.natAbs + 1) z.natAbs [] (by omega)
    simp only [hz, if_true, parseInteger, String.data_append, repr_data]
    simp only [List.singleton_append, List.cons_append, List.nil_append, if_true]
    rw [hp]
    have hneg : -((z.natAbs : Nat) : Int) = z := by omega
    simp only [hr, parseDigits, Option.map_some', hneg]
    simp
  · obtain ⟨k, rest, hk, hr⟩ := toDigitsCore_head (z.toNat + 1) z.toNat [] (by omega)
    have hp := parseDigits_toDigitsCore (z.toNat + 1) z.toNat [] (by omega)
    have hs := digitChar_ne_sign k hk
    simp only [hz, if_false, parseInteger, repr_data]
    rw [hr] at hp ⊢
    simp only [hs.1, hs.2, if_false]
    rw [hp]
    simp [parseDigits]
    omega

/-! ## The adapter -/

/-- The reading of `Names.TablesDistinct` as six inequalities. -/
theorem tablesDistinct_iff (K : Names) :
    K.TablesDistinct ↔
      (K.DISCRETES_INPUT ≠ K.COILS ∧ K.DISCRETES_INPUT ≠ K.INPUT_REGISTERS ∧
        K.DISCRETES_INPUT ≠ K.HOLDING_REGISTERS) ∧
      (K.COILS ≠ K.INPUT_REGISTERS ∧ K.COILS ≠ K.HOLDING_REGISTERS) ∧
      K.INPUT_REGISTERS ≠ K.HOLDING_REGISTERS := by
  simp [Names.TablesDistinct, List.nodup_cons, and_assoc]

/-- Claim C2, amended. On an adapter whose client is bound (`OpenConnection`
was called on it), for a command whose primary table is one of the four kinds,
`GetValue` makes exactly one call on the library, the read of that kind with
the starting address and the length of the command, and returns the bytes and
the error of that call. -/
theorem GetValue_dispatch {σ : Type} (K : Names) (T : Transport σ) (c : ModbusClient)
    (h : HandlerRef) (cmd : CommandInfo) (w : World σ)
    (hK : K.TablesDistinct) (hc : c.client = some h) :
    (cmd.PrimaryTable = K.DISCRETES_INPUT →
      ReadOutcome T h (Request.ReadDiscreteInputs cmd.StartingAddress cmd.Length) w
        (c.GetValue K T (Iface.commandInfo (some cmd)) w)) ∧
    (cmd.PrimaryTable = K.COILS →
      ReadOutcome T h (Request.ReadCoils cmd.StartingAddress cmd.Length) w
        (c.GetValue K T (Iface.commandInfo (some cmd)) w)) ∧
    (cmd.PrimaryTable = K.INPUT_REGISTERS →
      ReadOutcome T h (Request.ReadInputRegisters cmd.StartingAddress cmd.Length) w
        (c.GetValue K T (Iface.commandInfo (some cmd)) w)) ∧
    (cmd.PrimaryTable = K.HOLDING_REGISTERS →
      ReadOutcome T h (Request.ReadHoldingRegisters cmd.StartingAddress cmd.Length) w
        (c.GetValue K T (Iface.commandInfo (some cmd)) w)) := by
  obtain ⟨⟨h12, h13, h14⟩, ⟨h23, h24⟩, h34⟩ := (tablesDistinct_iff K).1 hK
  refine ⟨fun ht => ?_, fun ht => ?_, fun ht => ?_, fun ht => ?_⟩ <;>
    unfold ReadOutcome <;>
    simp only [ModbusClient.GetValue, assertCommandInfo, ModbusClient.call, hc, bind,
      Except.bind, pure, Except.pure, ht, if_true, if_false, Ne.symm h12, Ne.symm h13,
      Ne.symm h14, Ne.symm h23, Ne.symm h24, Ne.symm h34] <;>
    rcases T.send h _ w.st with ⟨⟨bytes, err⟩, s⟩ <;>
    cases err <;>
    exact ⟨_, rfl, rfl, rfl⟩

/-- Claim C2, amended, at a concrete input: a coil read on a bound adapter. -/
theorem GetValue_dispatch_witness :
    ReadOutcome quietTransport HandlerRef.tcp (Request.ReadCoils 10 2) emptyWorld
      (boundClient.GetValue exampleNames quietTransport
        (Iface.commandInfo (some { PrimaryTable := "COILS", StartingAddress := 10, Length := 2 }))
        emptyWorld) :=
  (GetValue_dispatch exampleNames quietTransport boundClient HandlerRef.tcp
    { PrimaryTable := "COILS", StartingAddress := 10, Length := 2 } emptyWorld
    (by decide) rfl).2.1 rfl

/-- Claim C2 as stated fails. On the adapter `NewDeviceClient` returns, before
any `OpenConnection`, the client is nil: `GetValue` on a coil read panics and
makes no call on the library. -/
theorem GetValue_unopened_panics :
    (NewDeviceClient exampleNames (some tcpInfo)).bind
        (fun o => o.1.GetValue exampleNames quietTransport
          (Iface.commandInfo (some coilRead)) emptyWorld) =
      .error Panic.nilDereference ∧
    coilRead.PrimaryTable = exampleNames.COILS :=
  ⟨rfl, rfl⟩

/-- Claim C5. For a command whose primary table is none of the four kinds,
`GetValue` makes no call on the library and returns an empty response and a nil
error, and `SetValue` makes no call on the library and returns a nil error,
whatever the value. -/
theorem unsupported_table_no_call {σ : Type} (K : Names) (T : Transport σ) (c : ModbusClient)
    (cmd : CommandInfo) (value : List Nat) (w : World σ)
    (h1 : cmd.PrimaryTable ≠ K.DISCRETES_INPUT) (h2 : cmd.PrimaryTable ≠ K.COILS)
    (h3 : cmd.PrimaryTable ≠ K.INPUT_REGISTERS) (h4 : cmd.PrimaryTable ≠ K.HOLDING_REGISTERS) :
    (∃ w1, c.GetValue K T (Iface.commandInfo (some cmd)) w = .ok (([], none), w1) ∧
      w1.trace = w.trace ∧ w1.st = w.st) ∧
    (∃ w1, c.SetValue K T (Iface.commandInfo (some cmd)) value w = .ok (none, w1) ∧
      w1.trace = w.trace ∧ w1.st = w.st) := by
  constructor
  · simp only [ModbusClient.GetValue, assertCommandInfo, bind, Except.bind, pure, Except.pure,
      h1, h2, h3, h4, if_false]
    exact ⟨_, rfl, rfl, rfl⟩
  · simp only [ModbusClient.SetValue, assertCommandInfo, bind, Except.bind, pure, Except.pure,
      h1, h2, h3, h4, if_false]
    exact ⟨_, rfl, rfl, rfl⟩

/-- Claim C5 at a concrete input: an unknown table, on an adapter that was
never opened. -/
theorem unsupported_table_no_call_witness :
    (∃ w1, ModbusClient.zero.GetValue exampleNames failingTransport
        (Iface.commandInfo (some { PrimaryTable := "FILES", StartingAddress := 3, Length := 1 }))
        emptyWorld = .ok (([], none), w1) ∧
      w1.trace = emptyWorld.trace ∧ w1.st = emptyWorld.st) ∧
    (∃ w1, ModbusClient.zero.SetValue exampleNames failingTransport
        (Iface.commandInfo (some { PrimaryTable := "FILES", StartingAddress := 3, Length := 1 }))
        [1, 2] emptyWorld = .ok (none, w1) ∧
      w1.trace = emptyWorld.trace ∧ w1.st = emptyWorld.st) :=
  unsupported_table_no_call exampleNames failingTransport ModbusClient.zero
    { PrimaryTable := "FILES", StartingAddress := 3, Length := 1 } [1, 2] emptyWorld
    (by decide) (by decide) (by decide) (by decide)

/-- Claim C4. For every adapter state, `OpenConnection` calls `Connect` on
exactly one handler, the one the stored `ModbusProtocol` selects (TCP, RTU and
ASCII select the handler of their name), binds the client built on that
handler and returns the error of `Connect`; `CloseConnection` calls `Close` on
exactly that handler and returns the error of `Close`; neither changes
`ModbusProtocol`. -/
theorem OpenClose_selected_handler {σ : Type} (K : Names) (T : Transport σ) (c : ModbusClient)
    (w : World σ) (hK : K.ProtocolsDistinct) :
    ∃ h : HandlerRef,
      (c.ModbusProtocol = K.ProtocolTCP → h = HandlerRef.tcp) ∧
      (c.ModbusProtocol = K.ProtocolRTU → h = HandlerRef.rtu) ∧
      (c.ModbusProtocol = K.ProtocolASCII → h = HandlerRef.ascii) ∧
      ((c.OpenConnection K T w).1 = (T.connect h w.st).1 ∧
        (c.OpenConnection K T w).2.1 = { c with client := some h } ∧
        (c.OpenConnection K T w).2.1.ModbusProtocol = c.ModbusProtocol ∧
        (c.OpenConnection K T w).2.2.trace = w.trace ++ [Event.Connect h] ∧
        (c.OpenConnection K T w).2.2.st = (T.connect h w.st).2) ∧
      ((c.CloseConnection K T w).1 = (T.close h w.st).1 ∧
        (c.CloseConnection K T w).2.1 = c ∧
        (c.CloseConnection K T w).2.2.trace = w.trace ++ [Event.Close h] ∧
        (c.CloseConnection K T w).2.2.st = (T.close h w.st).2) := by
  obtain ⟨h12, h13, h23⟩ := hK
  by_cases ht : c.ModbusProtocol = K.ProtocolTCP
  · refine ⟨HandlerRef.tcp, fun _ => rfl, fun hr => absurd (ht.symm.trans hr) h12,
      fun ha => absurd (ht.symm.trans ha) h13, ?_, ?_⟩ <;>
    simp [ModbusClient.OpenConnection, ModbusClient.CloseConnection, if_pos ht, World.connect,
      World.close, World.logLine]
  · by_cases hr : c.ModbusProtocol = K.ProtocolRTU
    · refine ⟨HandlerRef.rtu, fun h => absurd h ht, fun _ => rfl,
        fun ha => absurd (hr.symm.trans ha) h23, ?_, ?_⟩ <;>
      simp [ModbusClient.OpenConnection, ModbusClient.CloseConnection, if_neg ht, if_pos hr,
        World.connect, World.close, World.logLine]
    · refine ⟨HandlerRef.ascii, fun h => absurd h ht, fun h => absurd h hr, fun _ => rfl,
        ?_, ?_⟩ <;>
      simp [ModbusClient.OpenConnection, ModbusClient.CloseConnection, if_neg ht, if_neg hr,
        World.connect, World.close, World.logLine]

/-- Claim C4 at a concrete input: an adapter whose protocol is RTU, on a
transport that fails. -/
theorem OpenClose_selected_handler_witness :
    ∃ h : HandlerRef,
      (("modbus-rtu" : String) = exampleNames.ProtocolTCP → h = HandlerRef.tcp) ∧
      (("modbus-rtu" : String) = exampleNames.ProtocolRTU → h = HandlerRef.rtu) ∧
      (("modbus-rtu" : String) = exampleNames.ProtocolASCII → h = HandlerRef.ascii) ∧
      ((({ ModbusClient.zero with ModbusProtocol := "modbus-rtu" }).OpenConnection exampleNames
            failingTransport emptyWorld).1 = (failingTransport.connect h ()).1 ∧
        (({ ModbusClient.zero with ModbusProtocol := "modbus-rtu" }).OpenConnection exampleNames
            failingTransport emptyWorld).2.1 =
          { ModbusClient.zero with ModbusProtocol := "modbus-rtu", client := some h } ∧
        (({ ModbusClient.zero with ModbusProtocol := "modbus-rtu" }).OpenConnection exampleNames
            failingTransport emptyWorld).2.1.ModbusProtocol = "modbus-rtu" ∧
        (({ ModbusClient.zero with ModbusProtocol := "modbus-rtu" }).OpenConnection exampleNames
            failingTransport emptyWorld).2.2.trace = [] ++ [Event.Connect h] ∧
        (({ ModbusClient.zero with ModbusProtocol := "modbus-rtu" }).OpenConnection exampleNames
            failingTransport emptyWorld).2.2.st = (failingTransport.connect h ()).2) ∧
      ((({ ModbusClient.zero with ModbusProtocol := "modbus-rtu" }).CloseConnection exampleNames
            failingTransport emptyWorld).1 = (failingTransport.close h ()).1 ∧
        (({ ModbusClient.zero with ModbusProtocol := "modbus-rtu" }).CloseConnection exampleNames
            failingTransport emptyWorld).2.1 =
          { ModbusClient.zero with ModbusProtocol := "modbus-rtu" } ∧
        (({ ModbusClient.zero with ModbusProtocol := "modbus-rtu" }).CloseConnection exampleNames
            failingTransport emptyWorld).2.2.trace = [] ++ [Event.Close h] ∧
        (({ ModbusClient.zero with ModbusProtocol := "modbus-rtu" }).CloseConnection exampleNames
            failingTransport emptyWorld).2.2.st = (failingTransport.close h ()).2) :=
  OpenClose_selected_handler exampleNames failingTransport
    { ModbusClient.zero with ModbusProtocol := "modbus-rtu" } emptyWorld (by decide)

/-- Claim C1, amended. On an adapter whose client is bound, for a command
whose primary table is one of the four kinds, `SetValue` makes exactly one
call on the library and returns its error: multiple coils for discrete inputs
and coils, multiple registers for input registers, a single register holding
`256 * value[0] + value[1]` for holding registers with length 1 when the value
has two bytes or more, multiple registers for holding registers with another
length. -/
theorem SetValue_dispatch {σ : Type} (K : Names) (T : Transport σ) (c : ModbusClient)
    (h : HandlerRef) (cmd : CommandInfo) (value : List Nat) (w : World σ)
    (hK : K.TablesDistinct) (hc : c.client = some h) (ha : cmd.StartingAddress < 65536) :
    ((cmd.PrimaryTable = K.DISCRETES_INPUT ∨ cmd.PrimaryTable = K.COILS) →
      WriteOutcome T h (Request.WriteMultipleCoils cmd.StartingAddress cmd.Length value) w
        (c.SetValue K T (Iface.commandInfo (some cmd)) value w)) ∧
    (cmd.PrimaryTable = K.INPUT_REGISTERS →
      WriteOutcome T h (Request.WriteMultipleRegisters cmd.StartingAddress cmd.Length value) w
        (c.SetValue K T (Iface.commandInfo (some cmd)) value w)) ∧
    (cmd.PrimaryTable = K.HOLDING_REGISTERS → cmd.Length = 1 →
      ∀ b0 b1 rest, value = b0 :: b1 :: rest → b0 < 256 → b1 < 256 →
        WriteOutcome T h (Request.WriteSingleRegister cmd.StartingAddress (256 * b0 + b1)) w
          (c.SetValue K T (Iface.commandInfo (some cmd)) value w)) ∧
    (cmd.PrimaryTable = K.HOLDING_REGISTERS → cmd.Length ≠ 1 →
      WriteOutcome T h (Request.WriteMultipleRegisters cmd.StartingAddress cmd.Length value) w
        (c.SetValue K T (Iface.commandInfo (some cmd)) value w)) := by
  obtain ⟨⟨h12, h13, h14⟩, ⟨h23, h24⟩, h34⟩ := (tablesDistinct_iff K).1 hK
  have hu : uint16 cmd.StartingAddress = cmd.StartingAddress := Nat.mod_eq_of_lt ha
  refine ⟨fun ht => ?_, fun ht => ?_, fun ht hl b0 b1 rest hv hb0 hb1 => ?_, fun ht hl => ?_⟩
  · unfold WriteOutcome
    rcases ht with ht | ht <;>
      simp only [ModbusClient.SetValue, assertCommandInfo, ModbusClient.call, hc, bind,
        Except.bind, pure, Except.pure, ht, if_true, if_false, Ne.symm h12, hu] <;>
      rcases T.send h _ w.st with ⟨⟨bytes, err⟩, s⟩ <;>
      cases err <;>
      exact ⟨_, rfl, rfl, rfl⟩
  · unfold WriteOutcome
    simp only [ModbusClient.SetValue, assertCommandInfo, ModbusClient.call, hc, bind,
      Except.bind, pure, Except.pure, ht, if_true, if_false, Ne.symm h13, Ne.symm h23, hu]
    rcases T.send h _ w.st with ⟨⟨bytes, err⟩, s⟩
    cases err <;> exact ⟨_, rfl, rfl, rfl⟩
  · unfold WriteOutcome
    simp only [ModbusClient.SetValue, assertCommandInfo, ModbusClient.call, hc, bind,
      Except.bind, pure, Except.pure, ht, hl, hv, if_true, if_false, Ne.symm h14, Ne.symm h24,
      Ne.symm h34, hu, bigEndianUint16_bytes b0 b1 rest hb0 hb1]
    rcases T.send h _ w.st with ⟨⟨bytes, err⟩, s⟩
    cases err <;> exact ⟨_, rfl, rfl, rfl⟩
  · unfold WriteOutcome
    simp only [ModbusClient.SetValue, assertCommandInfo, ModbusClient.call, hc, bind,
      Except.bind, pure, Except.pure, ht, hl, if_true, if_false, Ne.symm h14, Ne.symm h24,
      Ne.symm h34, hu]
    rcases T.send h _ w.st with ⟨⟨bytes, err⟩, s⟩
    cases err <;> exact ⟨_, rfl, rfl, rfl⟩

/-- Claim C1, amended, at a concrete input: one holding register written from
the bytes `1, 44, 9` holds `256 * 1 + 44`. -/
theorem SetValue_dispatch_witness :
    WriteOutcome failingTransport HandlerRef.tcp
      (Request.WriteSingleRegister 7 (256 * 1 + 44)) emptyWorld
      (boundClient.SetValue exampleNames failingTransport
        (Iface.commandInfo
          (some { PrimaryTable := "HOLDING_REGISTERS", StartingAddress := 7, Length := 1 }))
        [1, 44, 9] emptyWorld) :=
  (SetValue_dispatch exampleNames failingTransport boundClient HandlerRef.tcp
    { PrimaryTable := "HOLDING_REGISTERS", StartingAddress := 7, Length := 1 } [1, 44, 9]
    emptyWorld (by decide) rfl (by decide)).2.2.1 rfl rfl 1 44 [9] rfl (by decide) (by decide)

/-- Claim C1 as stated fails. With an unknown primary table `SetValue` makes
no call on the library at all, and for one holding register with a value of a
single byte it panics before any call. -/
theorem SetValue_without_call :
    (boundClient.SetValue exampleNames quietTransport
        (Iface.commandInfo (some { PrimaryTable := "FILES", StartingAddress := 0, Length := 1 }))
        [1, 2] emptyWorld).map (fun o => (o.1, o.2.trace)) = .ok (none, []) ∧
    boundClient.SetValue exampleNames quietTransport
        (Iface.commandInfo
          (some { PrimaryTable := "HOLDING_REGISTERS", StartingAddress := 0, Length := 1 }))
        [7] emptyWorld = .error Panic.indexOutOfRange :=
  ⟨rfl, rfl⟩

/-- The first piece `strings.Split` returns is the text before the first
separator, all of the text when there is none. -/
theorem stringsSplit_head (sep : Char) (l : List Char) :
    ∃ rest, stringsSplit sep l = l.takeWhile (fun c => decide (c ≠ sep)) :: rest := by
  induction l with
  | nil => exact ⟨[], rfl⟩
  | cons c cs ih =>
    obtain ⟨rest, hr⟩ := ih
    by_cases hc : c = sep
    · exact ⟨stringsSplit sep cs, by simp [stringsSplit, hc]⟩
    · exact ⟨rest, by simp [stringsSplit, hc, hr]⟩

/-- What `NewDeviceClient` builds, for every `ConnectionInfo`: no error, the
handler of the protocol configured as claim C10 says, and a `ModbusProtocol`
that is left empty. -/
theorem NewDeviceClient_fields (K : Names) (info : ConnectionInfo) :
    ∃ c, NewDeviceClient K (some info) = .ok (c, none) ∧
      c.ModbusProtocol = "" ∧ c.client = none ∧
      (info.Protocol = K.ProtocolTCP →
        c.TCPClientHandler.Address = info.Address ++ ":" ++ decimalText info.Port ∧
        c.TCPClientHandler.SlaveId = info.UnitID % 256 ∧ c.TCPClientHandler.IdleTimeout = 0) ∧
      (info.Protocol ≠ K.ProtocolTCP → info.Protocol = K.ProtocolRTU →
        c.RTUClientHandler.Address =
            String.mk (info.Address.data.takeWhile (fun ch => decide (ch ≠ ','))) ∧
        c.RTUClientHandler.BaudRate = info.BaudRate ∧
        c.RTUClientHandler.DataBits = info.DataBits ∧
        c.RTUClientHandler.StopBits = info.StopBits ∧
        c.RTUClientHandler.Parity = info.Parity ∧
        c.RTUClientHandler.SlaveId = info.UnitID % 256 ∧ c.RTUClientHandler.IdleTimeout = 0) ∧
      (info.Protocol ≠ K.ProtocolTCP → info.Protocol ≠ K.ProtocolRTU →
        c.ASCIIClientHandler.Address =
            String.mk (info.Address.data.takeWhile (fun ch => decide (ch ≠ ','))) ∧
        c.ASCIIClientHandler.BaudRate = info.BaudRate ∧
        c.ASCIIClientHandler.DataBits = info.DataBits ∧
        c.ASCIIClientHandler.StopBits = info.StopBits ∧
        c.ASCIIClientHandler.Parity = info.Parity ∧
        c.ASCIIClientHandler.SlaveId = info.UnitID % 256 ∧
        c.ASCIIClientHandler.IdleTimeout = 0) := by
  obtain ⟨rest, hs⟩ := stringsSplit_head ',' info.Address.data
  by_cases ht : info.Protocol = K.ProtocolTCP
  · simp only [NewDeviceClient, if_pos ht]
    exact ⟨_, rfl, rfl, rfl, fun _ => ⟨rfl, rfl, rfl⟩, fun h => absurd ht h,
      fun h => absurd ht h⟩
  · by_cases hr : info.Protocol = K.ProtocolRTU
    · simp only [NewDeviceClient, if_neg ht, if_pos hr, hs]
      exact ⟨_, rfl, rfl, rfl, fun h => absurd h ht,
        fun _ _ => ⟨rfl, rfl, rfl, rfl, rfl, rfl, rfl⟩, fun _ h => absurd hr h⟩
    · simp only [NewDeviceClient, if_neg ht, if_neg hr, hs]
      exact ⟨_, rfl, rfl, rfl, fun h => absurd h ht, fun _ h => absurd h hr,
        fun _ _ => ⟨rfl, rfl, rfl, rfl, rfl, rfl, rfl⟩⟩

/-- The round trip never looks at the protocol of the `ConnectionInfo`: the
handler that is connected and closed is the one the empty name selects. -/
theorem roundTrip_handler {σ : Type} (K : Names) (T : Transport σ) (info : ConnectionInfo)
    (w : World σ) :
    ∃ h w2,
      h = (if "" = K.ProtocolTCP then HandlerRef.tcp
           else if "" = K.ProtocolRTU then HandlerRef.rtu else HandlerRef.ascii) ∧
      roundTrip K T info w =
        .ok ((T.connect h w.st).1, (T.close h (T.connect h w.st).2).1, w2) ∧
      w2.trace = w.trace ++ [Event.Connect h, Event.Close h] := by
  obtain ⟨c, hc, hp, -⟩ := NewDeviceClient_fields K info
  simp only [roundTrip, hc, bind, Except.bind, pure, Except.pure, ModbusClient.OpenConnection,
    ModbusClient.CloseConnection, hp, World.connect, World.close, World.logLine]
  by_cases ht : "" = K.ProtocolTCP
  · simp only [if_pos ht]
    exact ⟨_, _, rfl, rfl, by simp⟩
  · by_cases hr : "" = K.ProtocolRTU
    · simp only [if_neg ht, if_pos hr]
      exact ⟨_, _, rfl, rfl, by simp⟩
    · simp only [if_neg ht, if_neg hr]
      exact ⟨_, _, rfl, rfl, by simp⟩

/-- Claim C3 at a failing input. With the names of the upstream service, the
adapter built from the TCP `ConnectionInfo` of the tests connects and closes
the ASCII handler, and makes no call on the TCP handler. -/
theorem roundTrip_tcp_on_ascii_handler :
    (roundTrip exampleNames quietTransport tcpInfo emptyWorld).map (fun o => o.2.2.trace) =
      .ok [Event.Connect HandlerRef.ascii, Event.Close HandlerRef.ascii] :=
  rfl

/-- Claim C10 at a failing input. With the names of the upstream service, the
adapter built from the TCP `ConnectionInfo` of the tests has its TCP handler
configured and no error, and its `ModbusProtocol` is empty, not the TCP name. -/
theorem NewDeviceClient_tcp_protocol_unset :
    (NewDeviceClient exampleNames (some tcpInfo)).map
        (fun o => (o.1.ModbusProtocol, o.1.TCPClientHandler.Address, o.2)) =
      .ok ("", "0.0.0.0:502", none) ∧
    tcpInfo.Protocol = exampleNames.ProtocolTCP ∧ tcpInfo.Protocol ≠ "" := by
  refine ⟨rfl, rfl, by decide⟩

/-! ## The builder -/

/-- A numeric field that holds the decimal text of `z` is accepted exactly
when `z` is in the valid domain, and is out of range otherwise. -/
theorem parseRanged_decimalText (lo hi z : Int) :
    parseRanged lo hi (decimalText z) =
      if lo ≤ z ∧ z ≤ hi then .ok z else .error ConfigError.outOfRange := by
  simp only [parseRanged, parseInteger_decimalText]

/-- A numeric field fails with a parse error or with an out-of-range error. -/
theorem parseRanged_error (lo hi : Int) (text : String) (err : ConfigError)
    (h : parseRanged lo hi text = .error err) :
    err = ConfigError.parseError ∨ err = ConfigError.outOfRange := by
  unfold parseRanged at h
  split at h
  · exact Or.inl (by injection h with h; exact h.symm)
  · split at h
    · cases h
    · exact Or.inr (by injection h with h; exact h.symm)

/-- With a serial entry selected, the builder is the serial branch on it. -/
theorem createConnectionInfo_of_serial (K : Names) (m : ProtocolMap) (protocol : String)
    (e : ProtocolProperties) (hsel : SelectsSerial K m protocol e) :
    createConnectionInfo K m = createSerialConnectionInfo protocol e := by
  obtain ⟨ht, ⟨hp, hr⟩ | ⟨hp, hr, ha⟩⟩ := hsel
  · simp only [createConnectionInfo, ht, hr, hp]
  · simp only [createConnectionInfo, ht, hr, ha, hp]

/-- Claim C6. For a map with a TCP entry whose port is the decimal text of `p`
in 0..65535 and whose unit is the decimal text of `u` in 0..255, the builder
succeeds with the TCP protocol, the address of the entry, port `p` and unit `u`. -/
theorem createConnectionInfo_tcp (K : Names) (m : ProtocolMap) (e : ProtocolProperties)
    (p u : Nat) (hm : m K.ProtocolTCP = some e)
    (hp : e.Port = decimalText p) (hpr : p ≤ 65535)
    (hu : e.UnitID = decimalText u) (hur : u ≤ 255) :
    ∃ info, createConnectionInfo K m = .ok info ∧ info.Protocol = K.ProtocolTCP ∧
      info.Address = e.Address ∧ info.Port = p ∧ info.UnitID = u := by
  have h1 : (0 : Int) ≤ (u : Int) ∧ (u : Int) ≤ 255 := by omega
  have h2 : (0 : Int) ≤ (p : Int) ∧ (p : Int) ≤ 65535 := by omega
  simp only [createConnectionInfo, hm, createTCPConnectionInfo, hp, hu, parseRanged_decimalText,
    if_pos h1, if_pos h2, bind, Except.bind, pure, Except.pure]
  exact ⟨_, rfl, rfl, rfl, rfl, by simp⟩

/-- Claim C6 at a concrete input: that of `TestCreateTCPConnectionInfo`,
address 0.0.0.0, port 502, unit 255. -/
theorem createConnectionInfo_tcp_witness :
    ∃ info, createConnectionInfo exampleNames (singleEntry "modbus-tcp" tcpEntry) = .ok info ∧
      info.Protocol = exampleNames.ProtocolTCP ∧ info.Address = tcpEntry.Address ∧
      info.Port = (502 : Nat) ∧ info.UnitID = 255 :=
  createConnectionInfo_tcp exampleNames (singleEntry "modbus-tcp" tcpEntry) tcpEntry 502 255
    rfl rfl (by decide) rfl (by decide)

/-- Claim C7, amended. For a map with no TCP entry whose RTU entry (or, when
there is no RTU entry either, whose ASCII entry) has a unit that is the decimal
text of `u` in 0..255, a baud rate, data bits and stop bits that are the decimal
texts of integers `b`, `d`, `s` of the range of `int`, and a parity among N, O,
E, the builder succeeds with the protocol of that entry, its address, unit `u`,
`b`, `d`, `s` and the parity as given. -/
theorem createConnectionInfo_serial (K : Names) (m : ProtocolMap) (protocol : String)
    (e : ProtocolProperties) (u : Nat) (b d s : Int)
    (hsel : SelectsSerial K m protocol e)
    (hu : e.UnitID = decimalText u) (hur : u ≤ 255)
    (hb : e.BaudRate = decimalText b) (hbr : intMin ≤ b ∧ b ≤ intMax)
    (hd : e.DataBits = decimalText d) (hdr : intMin ≤ d ∧ d ≤ intMax)
    (hs : e.StopBits = decimalText s) (hsr : intMin ≤ s ∧ s ≤ intMax)
    (hpar : e.Parity = "N" ∨ e.Parity = "O" ∨ e.Parity = "E") :
    ∃ info, createConnectionInfo K m = .ok info ∧ info.Protocol = protocol ∧
      info.Address = e.Address ∧ info.UnitID = u ∧ info.BaudRate = b ∧
      info.DataBits = d ∧ info.StopBits = s ∧ info.Parity = e.Parity := by
  have h1 : (0 : Int) ≤ (u : Int) ∧ (u : Int) ≤ 255 := by omega
  rw [createConnectionInfo_of_serial K m protocol e hsel]
  simp only [createSerialConnectionInfo, hu, hb, hd, hs, parseRanged_decimalText, if_pos h1,
    if_pos hbr, if_pos hdr, if_pos hsr, parseParity, if_pos hpar, bind, Except.bind, pure,
    Except.pure]
  exact ⟨_, rfl, rfl, rfl, by simp, rfl, rfl, rfl, rfl⟩

/-- Claim C7, amended, at a concrete input: that of
`TestCreateConnectionInfo_unitID0`, an RTU entry with unit 0. -/
theorem createConnectionInfo_serial_witness :
    ∃ info, createConnectionInfo exampleNames
        (singleEntry "modbus-rtu" { rtuEntry with UnitID := "0" }) = .ok info ∧
      info.Protocol = "modbus-rtu" ∧ info.Address = "/dev/USB0tty" ∧
      info.UnitID = 0 ∧ info.BaudRate = 19200 ∧ info.DataBits = 8 ∧ info.StopBits = 1 ∧
      info.Parity = "N" :=
  createConnectionInfo_serial exampleNames
    (singleEntry "modbus-rtu" { rtuEntry with UnitID := "0" }) "modbus-rtu"
    { rtuEntry with UnitID := "0" } 0 19200 8 1 ⟨rfl, Or.inl ⟨rfl, rfl⟩⟩ rfl (by decide)
    rfl (by decide) rfl (by decide) rfl (by decide) (Or.inl rfl)

/-- Claim C7 as stated fails. A map with no TCP entry and a valid ASCII entry
yields the RTU protocol when it has an RTU entry too; and a baud rate that is
the decimal text of `2 ^ 63`, an integer beyond `int`, is refused. -/
theorem serial_entry_not_always_built :
    (bothSerial exampleNames.ProtocolTCP = none ∧
      bothSerial exampleNames.ProtocolASCII = some asciiEntry ∧
      (createConnectionInfo exampleNames bothSerial).map (fun i => (i.Protocol, i.DataBits)) =
        .ok ("modbus-rtu", 8)) ∧
    (decimalText (2 ^ 63) = "9223372036854775808" ∧
      createConnectionInfo exampleNames
          (singleEntry "modbus-rtu" { rtuEntry with BaudRate := "9223372036854775808" }) =
        .error ConfigError.outOfRange) :=
  ⟨⟨rfl, rfl, rfl⟩, by decide, rfl⟩

/-- The out-of-range message contains the text the tests look for. -/
theorem outOfRange_message_contains :
    stringsContains ConfigError.outOfRange.message outOfRangeText :=
  List.infix_refl _

/-- Claim C8, amended. A TCP entry, or an RTU entry in a map without TCP
entry, whose unit is the decimal text of an integer above 255 makes the builder
fail with an error whose message contains "value out of range"; so does a TCP
entry with a valid unit whose port is the decimal text of an integer above
65535. -/
theorem createConnectionInfo_out_of_range (K : Names) (m : ProtocolMap)
    (e : ProtocolProperties) (u p : Int) :
    ((m K.ProtocolTCP = some e ∨ (m K.ProtocolTCP = none ∧ m K.ProtocolRTU = some e)) →
      e.UnitID = decimalText u → 255 < u →
      ∃ err, createConnectionInfo K m = .error err ∧
        stringsContains err.message outOfRangeText) ∧
    (m K.ProtocolTCP = some e → e.UnitID = decimalText u → 0 ≤ u → u ≤ 255 →
      e.Port = decimalText p → 65535 < p →
      ∃ err, createConnectionInfo K m = .error err ∧
        stringsContains err.message outOfRangeText) := by
  constructor
  · intro hm hu hbig
    have h1 : ¬((0 : Int) ≤ u ∧ u ≤ 255) := by omega
    refine ⟨ConfigError.outOfRange, ?_, outOfRange_message_contains⟩
    rcases hm with hm | ⟨ht, hr⟩
    · simp only [createConnectionInfo, hm, createTCPConnectionInfo, hu, parseRanged_decimalText,
        if_neg h1, bind, Except.bind]
    · simp only [createConnectionInfo, ht, hr, createSerialConnectionInfo, hu,
        parseRanged_decimalText, if_neg h1, bind, Except.bind]
  · intro hm hu hu0 hu1 hp hbig
    have h1 : (0 : Int) ≤ u ∧ u ≤ 255 := ⟨hu0, hu1⟩
    have h2 : ¬((0 : Int) ≤ p ∧ p ≤ 65535) := by omega
    refine ⟨ConfigError.outOfRange, ?_, outOfRange_message_contains⟩
    simp only [createConnectionInfo, hm, createTCPConnectionInfo, hu, hp,
      parseRanged_decimalText, if_pos h1, if_neg h2, bind, Except.bind]

/-- Claim C8, amended, at concrete inputs: unit 256 in the TCP entry, unit 256
in the RTU entry, and port 65536 with unit 1, as in the tests. -/
theorem createConnectionInfo_out_of_range_witness :
    (∃ err, createConnectionInfo exampleNames
        (singleEntry "modbus-tcp" { tcpEntry with UnitID := "256" }) = .error err ∧
      stringsContains err.message outOfRangeText) ∧
    (∃ err, createConnectionInfo exampleNames
        (singleEntry "modbus-rtu" { rtuEntry with UnitID := "256" }) = .error err ∧
      stringsContains err.message outOfRangeText) ∧
    (∃ err, createConnectionInfo exampleNames
        (singleEntry "modbus-tcp" { tcpEntry with Port := "65536", UnitID := "1" }) = .error err ∧
      stringsContains err.message outOfRangeText) :=
  ⟨(createConnectionInfo_out_of_range exampleNames
      (singleEntry "modbus-tcp" { tcpEntry with UnitID := "256" })
      { tcpEntry with UnitID := "256" } 256 502).1 (Or.inl rfl) rfl (by decide),
   (createConnectionInfo_out_of_range exampleNames
      (singleEntry "modbus-rtu" { rtuEntry with UnitID := "256" })
      { rtuEntry with UnitID := "256" } 256 0).1 (Or.inr ⟨rfl, rfl⟩) rfl (by decide),
   (createConnectionInfo_out_of_range exampleNames
      (singleEntry "modbus-tcp" { tcpEntry with Port := "65536", UnitID := "1" })
      { tcpEntry with Port := "65536", UnitID := "1" } 1 65536).2 rfl rfl (by decide)
      (by decide) rfl (by decide)⟩

/-- Claim C8 as stated fails. A map with a valid TCP entry and an RTU entry
whose unit is the decimal text of 256 is accepted: the builder works on the
TCP entry and never reads the RTU entry. -/
theorem out_of_range_rtu_entry_accepted :
    tcpAndBadUnitRtu exampleNames.ProtocolRTU = some { rtuEntry with UnitID := "256" } ∧
    decimalText 256 = "256" ∧
    createConnectionInfo exampleNames tcpAndBadUnitRtu = .ok tcpInfo :=
  ⟨rfl, by decide, rfl⟩

/-- Only the invalid-parity error carries the invalid-parity text. -/
theorem message_contains_parity_text (err : ConfigError)
    (h : stringsContains err.message invalidParityText) : err = ConfigError.invalidParity := by
  have hl := List.IsInfix.length_le h
  cases err with
  | missingProtocol => exact absurd hl (by decide)
  | outOfRange => exact absurd hl (by decide)
  | parseError => exact absurd hl (by decide)
  | invalidParity => rfl

/-- Claim C9, amended. For the serial entry the builder works on (the RTU
entry of a map with no TCP entry, or the ASCII entry of a map with neither a
TCP nor an RTU entry), with its other fields valid: a parity that is none of N,
O, E makes the builder fail with an error whose message contains the
invalid-parity text; and with a parity among N, O, E the builder never fails
with such an error. -/
theorem createConnectionInfo_parity (K : Names) (m : ProtocolMap) (protocol : String)
    (e : ProtocolProperties) (hsel : SelectsSerial K m protocol e) :
    (∀ (u : Nat) (b d s : Int),
      e.UnitID = decimalText u → u ≤ 255 →
      e.BaudRate = decimalText b → intMin ≤ b ∧ b ≤ intMax →
      e.DataBits = decimalText d → intMin ≤ d ∧ d ≤ intMax →
      e.StopBits = decimalText s → intMin ≤ s ∧ s ≤ intMax →
      ¬(e.Parity = "N" ∨ e.Parity = "O" ∨ e.Parity = "E") →
      ∃ err, createConnectionInfo K m = .error err ∧
        stringsContains err.message invalidParityText) ∧
    ((e.Parity = "N" ∨ e.Parity = "O" ∨ e.Parity = "E") →
      ∀ err, createConnectionInfo K m = .error err →
        ¬stringsContains err.message invalidParityText) := by
  rw [createConnectionInfo_of_serial K m protocol e hsel]
  constructor
  · intro u b d s hu hur hb hbr hd hdr hs hsr hpar
    have h1 : (0 : Int) ≤ (u : Int) ∧ (u : Int) ≤ 255 := by omega
    refine ⟨ConfigError.invalidParity, ?_, List.infix_refl _⟩
    simp only [createSerialConnectionInfo, hu, hb, hd, hs, parseRanged_decimalText, if_pos h1,
      if_pos hbr, if_pos hdr, if_pos hsr, parseParity, if_neg hpar, bind, Except.bind]
  · intro hpar err herr hcon
    have hinv := message_contains_parity_text err hcon
    subst hinv
    simp only [createSerialConnectionInfo, parseParity, if_pos hpar, bind, Except.bind, pure,
      Except.pure] at herr
    rcases h1 : parseRanged 0 255 e.UnitID with e1 | v1
    · rw [h1] at herr
      rcases parseRanged_error _ _ _ _ h1 with h | h <;> subst h <;> cases herr
    · rw [h1] at herr
      rcases h2 : parseRanged intMin intMax e.BaudRate with e2 | v2
      · rw [h2] at herr
        rcases parseRanged_error _ _ _ _ h2 with h | h <;> subst h <;> cases herr
      · rw [h2] at herr
        rcases h3 : parseRanged intMin intMax e.DataBits with e3 | v3
        · rw [h3] at herr
          rcases parseRanged_error _ _ _ _ h3 with h | h <;> subst h <;> cases herr
        · rw [h3] at herr
          rcases h4 : parseRanged intMin intMax e.StopBits with e4 | v4
          · rw [h4] at herr
            rcases parseRanged_error _ _ _ _ h4 with h | h <;> subst h <;> cases herr
          · rw [h4] at herr
            cases herr

/-- Claim C9, amended, at concrete inputs: the input of
`TestCreateConnectionInfo_invalidParity` fails with the invalid-parity text,
and the same entry with parity N does not fail with it. -/
theorem createConnectionInfo_parity_witness :
    (∃ err, createConnectionInfo exampleNames
        (singleEntry "modbus-rtu"
          { rtuEntry with UnitID := "1", Parity := "invalid-parity" }) = .error err ∧
      stringsContains err.message invalidParityText) ∧
    (∀ err, createConnectionInfo exampleNames
        (singleEntry "modbus-rtu" { rtuEntry with UnitID := "1" }) = .error err →
      ¬stringsContains err.message invalidParityText) :=
  ⟨(createConnectionInfo_parity exampleNames
      (singleEntry "modbus-rtu" { rtuEntry with UnitID := "1", Parity := "invalid-parity" })
      "modbus-rtu" { rtuEntry with UnitID := "1", Parity := "invalid-parity" }
      ⟨rfl, Or.inl ⟨rfl, rfl⟩⟩).1 1 19200 8 1 rfl (by decide) rfl (by decide) rfl (by decide)
      rfl (by decide) (by decide),
   (createConnectionInfo_parity exampleNames
      (singleEntry "modbus-rtu" { rtuEntry with UnitID := "1" })
      "modbus-rtu" { rtuEntry with UnitID := "1" } ⟨rfl, Or.inl ⟨rfl, rfl⟩⟩).2 (Or.inl rfl)⟩

/-- Claim C9 as stated fails, in both directions. A map with a valid TCP entry
and an RTU entry of invalid parity is accepted; and a map with an RTU entry of
invalid parity and an ASCII entry of parity N fails with the invalid-parity
error, although its ASCII entry is valid. -/
theorem parity_depends_on_selected_entry :
    (tcpAndBadParityRtu exampleNames.ProtocolRTU =
        some { rtuEntry with Parity := "invalid-parity" } ∧
      createConnectionInfo exampleNames tcpAndBadParityRtu = .ok tcpInfo) ∧
    (badParityRtuAndAscii exampleNames.ProtocolASCII = some asciiEntry ∧
      asciiEntry.Parity = "N" ∧
      createConnectionInfo exampleNames badParityRtuAndAscii =
        .error ConfigError.invalidParity ∧
      stringsContains ConfigError.invalidParity.message invalidParityText) :=
  ⟨⟨rfl, rfl⟩, rfl, rfl, rfl, List.infix_refl _⟩

end Driver
